import Mathlib

/-
Verification development for the PRMS bookmanager persistence core.

Shallow embedding of:
  - the Book entity (src/core/book.cpp, book.h): validated fields, throwing
    setters modelled with Except, timestamps modelled as Int seconds
    (the engine stores time_t seconds, so one-second resolution is native);
  - the BookStatus helpers (include/core/book_status.h);
  - the Database persistence component (database.cpp): the books table is a
    list of rows, the sqlite engine semantics of the issued SQL statements
    (INSERT, SELECT, LIKE matching, UPDATE, DELETE, BEGIN/COMMIT/ROLLBACK)
    are modelled directly; the connection handle is an Option, none after
    close, matching the m_db pointer being null.
-/

instance {e a : Type} [DecidableEq e] [DecidableEq a] : DecidableEq (Except e a) := fun x y =>
  match x, y with
  | .ok u, .ok v =>
    if h : u = v then .isTrue (congrArg _ h)
    else .isFalse (fun hh => h (Except.ok.inj hh))
  | .error u, .error v =>
    if h : u = v then .isTrue (congrArg _ h)
    else .isFalse (fun hh => h (Except.error.inj hh))
  | .ok _, .error _ => .isFalse (fun hh => Except.noConfusion hh)
  | .error _, .ok _ => .isFalse (fun hh => Except.noConfusion hh)

namespace PRMS

/-- Failure conditions surfaced by the embedded code. The C++ code throws
std.invalid_argument (invalidArgument) and std.runtime_error (runtimeError).
preconditionFailed is the condition named by the specification for
operations on a closed store; no code path constructs it.
nullHandleMisuse stands for the outcome of invoking a sqlite3 API function
with a null connection handle, which is what every Database operation does
after close() since none of them consults isOpen(); in C++ this is
SQLITE_MISUSE or undefined behavior (typically a crash), and in particular
it is not a PreconditionFailed condition raised by the code. -/
inductive DbErr where
  | invalidArgument (msg : String)
  | runtimeError (msg : String)
  | preconditionFailed (msg : String)
  | nullHandleMisuse
deriving DecidableEq, Repr

/-- The reading-status enumeration from include/core/book_status.h. -/
inductive BookStatus where
  | toRead
  | reading
  | completed
  | dnf
  | wishlist
deriving DecidableEq, Repr

/-- intToBookStatus from include/core/book_status.h: codes 0..4 map to the
matching enumerator, anything else falls back to ToRead. -/
def intToBookStatus (code : Int) : BookStatus :=
  if 0 ≤ code ∧ code ≤ 4 then
    if code = 0 then .toRead
    else if code = 1 then .reading
    else if code = 2 then .completed
    else if code = 3 then .dnf
    else .wishlist
  else .toRead

/-- bookStatusToInt from include/core/book_status.h. -/
def bookStatusToInt (s : BookStatus) : Int :=
  match s with
  | .toRead => 0
  | .reading => 1
  | .completed => 2
  | .dnf => 3
  | .wishlist => 4

/-- The Book entity (book.h): all member variables. Timestamps are Int
seconds; the two optional dates are none when the C++ std::optional is
empty. -/
structure Book where
  id : Int
  title : String
  author : String
  isbn : String
  pageCount : Int
  currentPage : Int
  startDate : Option Int
  completionDate : Option Int
  genre : String
  publisher : String
  yearPublished : Int
  notes : String
  review : String
  rating : Int
  coverPath : String
  dateAdded : Int
  status : Int
deriving DecidableEq, Repr

/-- Book default constructor: every field defaulted, dateAdded set to the
current time (passed in as now). -/
def Book.new (now : Int) : Book :=
  { id := 0, title := "", author := "", isbn := "", pageCount := 0,
    currentPage := 0, startDate := none, completionDate := none,
    genre := "", publisher := "", yearPublished := 0, notes := "",
    review := "", rating := 0, coverPath := "", dateAdded := now,
    status := 0 }

/-- Book parameterized constructor Book(title, author, isbn, pageCount):
members are initialized first, then validated in source order. -/
def Book.make (title author isbn : String) (pageCount now : Int) :
    Except DbErr Book :=
  if pageCount < 0 then .error (.invalidArgument "Page count cannot be negative")
  else if title = "" then .error (.invalidArgument "Title cannot be empty")
  else if author = "" then .error (.invalidArgument "Author cannot be empty")
  else if isbn ≠ "" ∧ isbn.length ≠ 13 then
    .error (.invalidArgument "ISBN must be 13 digits")
  else .ok { Book.new now with
      title := title,
      author := author,
      isbn := isbn,
      pageCount := pageCount }

/-- Book::setId: rejects negative ids. -/
def Book.setId (b : Book) (id : Int) : Except DbErr Book :=
  if id < 0 then .error (.invalidArgument "ID cannot be negative")
  else .ok { b with id := id }

/-- Book::setTitle: rejects the empty string. -/
def Book.setTitle (b : Book) (title : String) : Except DbErr Book :=
  if title = "" then .error (.invalidArgument "Title cannot be empty")
  else .ok { b with title := title }

/-- Book::setAuthor: rejects the empty string. -/
def Book.setAuthor (b : Book) (author : String) : Except DbErr Book :=
  if author = "" then .error (.invalidArgument "Author cannot be empty")
  else .ok { b with author := author }

/-- Book::setISBN: the source checks only that a non-empty string has
length 13; the characters themselves are not inspected. -/
def Book.setISBN (b : Book) (isbn : String) : Except DbErr Book :=
  if isbn ≠ "" ∧ isbn.length ≠ 13 then
    .error (.invalidArgument "ISBN must be 13 digits")
  else .ok { b with isbn := isbn }

/-- Book::setPageCount: rejects negatives, then clamps currentPage down to
the new page count when it exceeds it. -/
def Book.setPageCount (b : Book) (pageCount : Int) : Except DbErr Book :=
  if pageCount < 0 then .error (.invalidArgument "Page count cannot be negative")
  else
    .ok { b with
        pageCount := pageCount,
        currentPage := if b.currentPage > pageCount then pageCount
                       else b.currentPage }

/-- Book::setCurrentPage: rejects negatives; rejects a page above pageCount
only when pageCount is positive; then auto-populates startDate with now if
absent and the page is positive, and completionDate with now if absent and
the page reaches a positive pageCount. -/
def Book.setCurrentPage (b : Book) (currentPage now : Int) :
    Except DbErr Book :=
  if currentPage < 0 then
    .error (.invalidArgument "Current page cannot be negative")
  else if currentPage > b.pageCount ∧ b.pageCount > 0 then
    .error (.invalidArgument "Current page cannot be greater than page count")
  else
    let b1 : Book := { b with currentPage := currentPage }
    let b2 : Book :=
      if currentPage > 0 ∧ b1.startDate = none then
        { b1 with startDate := some now } else b1
    let b3 : Book :=
      if currentPage = b2.pageCount ∧ b2.pageCount > 0 ∧
          b2.completionDate = none then
        { b2 with completionDate := some now } else b2
    .ok b3

/-- Book::setStartDate: unconditional. -/
def Book.setStartDate (b : Book) (t : Int) : Book :=
  { b with startDate := some t }

/-- Book::setCompletionDate: unconditional. -/
def Book.setCompletionDate (b : Book) (t : Int) : Book :=
  { b with completionDate := some t }

/-- Book::setGenre: unconditional. -/
def Book.setGenre (b : Book) (genre : String) : Book :=
  { b with genre := genre }

/-- Book::setPublisher: unconditional. -/
def Book.setPublisher (b : Book) (publisher : String) : Book :=
  { b with publisher := publisher }

/-- Book::setYearPublished: rejects years outside 0..9999. -/
def Book.setYearPublished (b : Book) (year : Int) : Except DbErr Book :=
  if year < 0 ∨ year > 9999 then .error (.invalidArgument "Invalid year")
  else .ok { b with yearPublished := year }

/-- Book::setNotes: unconditional. -/
def Book.setNotes (b : Book) (notes : String) : Book :=
  { b with notes := notes }

/-- Book::setReview: unconditional. -/
def Book.setReview (b : Book) (review : String) : Book :=
  { b with review := review }

/-- Book::setRating: rejects ratings outside 0..5. -/
def Book.setRating (b : Book) (rating : Int) : Except DbErr Book :=
  if rating < 0 ∨ rating > 5 then
    .error (.invalidArgument "Rating must be between 0 and 5")
  else .ok { b with rating := rating }

/-- Book::setCoverPath: unconditional. -/
def Book.setCoverPath (b : Book) (path : String) : Book :=
  { b with coverPath := path }

/-- Book::setDateAdded: unconditional. -/
def Book.setDateAdded (b : Book) (t : Int) : Book :=
  { b with dateAdded := t }

/-- Book::setStatus: rejects codes outside 0..4 (it does not fall back to
ToRead the way intToBookStatus does). -/
def Book.setStatus (b : Book) (status : Int) : Except DbErr Book :=
  if status < 0 ∨ status > 4 then
    .error (.invalidArgument "Invalid status code")
  else .ok { b with status := status }

/-- Book::markAsCompleted: throws when pageCount is not positive, else sets
currentPage to pageCount and completionDate to now. It does not touch
startDate. -/
def Book.markAsCompleted (b : Book) (now : Int) : Except DbErr Book :=
  if b.pageCount ≤ 0 then
    .error (.runtimeError "Cannot mark book as completed: page count is 0")
  else .ok { b with currentPage := b.pageCount, completionDate := some now }

/-- Book::resetProgress: clears progress and both optional dates. -/
def Book.resetProgress (b : Book) : Book :=
  { b with currentPage := 0, startDate := none, completionDate := none }

/-- One stored row of the books table (schema in initializeSchema). TEXT
and the nullable INTEGER date columns are Options: none models SQL NULL,
exactly what sqlite3_column_text returning a null pointer or
sqlite3_column_type returning SQLITE_NULL reports. -/
structure Row where
  id : Int
  title : Option String
  author : Option String
  isbn : Option String
  page_count : Int
  current_page : Int
  start_date : Option Int
  completion_date : Option Int
  genre : Option String
  publisher : Option String
  year_published : Int
  notes : Option String
  review : Option String
  rating : Int
  cover_path : Option String
  date_added : Option Int
  status : Int
deriving DecidableEq, Repr

/-- The column values Database::addBook and Database::updateBook bind for a
book: text columns are always bound (possibly as the empty string, never as
NULL), the two optional dates are bound as NULL exactly when absent. -/
def rowOfBook (b : Book) (id : Int) : Row :=
  { id := id, title := some b.title, author := some b.author,
    isbn := some b.isbn, page_count := b.pageCount,
    current_page := b.currentPage, start_date := b.startDate,
    completion_date := b.completionDate, genre := some b.genre,
    publisher := some b.publisher, year_published := b.yearPublished,
    notes := some b.notes, review := some b.review, rating := b.rating,
    cover_path := some b.coverPath, date_added := some b.dateAdded,
    status := b.status }

/-- Columns 0..15 of Database::bookFromStatement, applied to a default Book
in source order. Text columns read as a null pointer decode to the empty
string for title and author and are skipped for the remaining text
columns; the nullable date columns are only applied when non-NULL. The
throwing setters keep their Except semantics, so a bad column value
propagates as an error exactly as the C++ exception would. -/
def decodeColumns (r : Row) (now : Int) : Except DbErr Book := do
  let b0 := Book.new now
  let b1 ← b0.setId r.id
  let b2 ← b1.setTitle (r.title.getD "")
  let b3 ← b2.setAuthor (r.author.getD "")
  let b4 ← match r.isbn with
    | some s => b3.setISBN s
    | none => pure b3
  let b5 ← b4.setPageCount r.page_count
  let b6 ← b5.setCurrentPage r.current_page now
  let b7 := match r.start_date with
    | some t => b6.setStartDate t
    | none => b6
  let b8 := match r.completion_date with
    | some t => b7.setCompletionDate t
    | none => b7
  let b9 := match r.genre with
    | some g => b8.setGenre g
    | none => b8
  let b10 := match r.publisher with
    | some p => b9.setPublisher p
    | none => b9
  let b11 ← b10.setYearPublished r.year_published
  let b12 := match r.notes with
    | some n => b11.setNotes n
    | none => b11
  let b13 := match r.review with
    | some v => b12.setReview v
    | none => b12
  let b14 ← b13.setRating r.rating
  let b15 := match r.cover_path with
    | some c => b14.setCoverPath c
    | none => b14
  let b16 := match r.date_added with
    | some t => b15.setDateAdded t
    | none => b15
  pure b16

/-- Database::bookFromStatement: columns 0..15 followed by column 16, which
is applied through Book::setStatus (not through intToBookStatus). -/
def bookFromStatement (r : Row) (now : Int) : Except DbErr Book :=
  (decodeColumns r now).bind (fun b => b.setStatus r.status)

/-- The suffixes of a character list, longest first, always ending with the
empty suffix; used to give SQL LIKE its matches-any-run semantics for the
percent wildcard. -/
def likeTails : List Char → List (List Char)
  | [] => [[]]
  | c :: cs => (c :: cs) :: likeTails cs

/-- SQL LIKE pattern matching over characters: percent matches any run
(including the empty run), underscore matches exactly one character, every
other pattern character matches itself. -/
def likeMatch : List Char → List Char → Bool
  | [], s => s.isEmpty
  | p :: ps, s =>
    if p = '%' then (likeTails s).any (fun s2 => likeMatch ps s2)
    else
      match s with
      | [] => false
      | c :: cs => (p == '_' || p == c) && likeMatch ps cs

/-- The ASCII lowering performed by the LOWER SQL function. -/
def sqliteLowerChar (c : Char) : Char :=
  if 'A' ≤ c ∧ c ≤ 'Z' then Char.ofNat (c.toNat + 32) else c

/-- LOWER applied to a whole string. -/
def sqliteLower (s : String) : String :=
  String.mk (s.data.map sqliteLowerChar)

/-- The WHERE clause of Database::searchBooks for one row: the pattern is
the query wrapped in percent wildcards, both sides lowered; a NULL column
never matches (LIKE on NULL yields NULL, which is not true). -/
def rowMatches (query : String) (r : Row) : Bool :=
  let pat := sqliteLower ("%" ++ query ++ "%")
  (match r.title with
   | some t => likeMatch pat.data (sqliteLower t).data
   | none => false) ||
  (match r.author with
   | some a => likeMatch pat.data (sqliteLower a).data
   | none => false)

/-- Insertion into a list sorted by the given comparison. -/
def insertBy (le : α → α → Bool) (x : α) : List α → List α
  | [] => [x]
  | y :: ys => if le x y then x :: y :: ys else y :: insertBy le x ys

/-- Insertion sort by the given comparison; models the ORDER BY clauses. -/
def sortBy (le : α → α → Bool) : List α → List α
  | [] => []
  | x :: xs => insertBy le x (sortBy le xs)

/-- Lexicographic comparison of character lists by code point. -/
def charsLe : List Char → List Char → Bool
  | [], _ => true
  | _ :: _, [] => false
  | a :: as, b :: bs =>
    if a.toNat = b.toNat then charsLe as bs else decide (a.toNat < b.toNat)

/-- BINARY collation order on two rows by title, used by ORDER BY title. -/
def rowTitleLe (a b : Row) : Bool :=
  charsLe (a.title.getD "").data (b.title.getD "").data

/-- Ascending id order on rows, used by ORDER BY id. -/
def rowIdLe (a b : Row) : Bool :=
  decide (a.id ≤ b.id)

/-- The state behind one open sqlite connection: the books table, the next
AUTOINCREMENT id, and, when a transaction is open, the snapshot of the
durable state a ROLLBACK would restore. -/
structure DbState where
  table : List Row
  nextId : Int
  txnSnapshot : Option (List Row × Int)
deriving DecidableEq, Repr

/-- Well-formedness the engine maintains for the books table: the primary
key is unique, every assigned id is below the AUTOINCREMENT counter, and
the counter is positive (ids start at 1). -/
@[reducible] def stWf (st : DbState) : Prop :=
  st.table.Pairwise (fun a b => a.id ≠ b.id) ∧
  (∀ r ∈ st.table, r.id < st.nextId) ∧ 0 < st.nextId

/-- Body of Database::addBook on an open connection: the INSERT appends a
row with all sixteen bound columns and the engine-assigned id, then
book.setId writes the new id back into the entity, and the id is
returned. -/
def addBookImpl (st : DbState) (b : Book) :
    Except DbErr (Int × Book × DbState) := do
  let newId := st.nextId
  let st2 : DbState :=
    { st with table := st.table ++ [rowOfBook b newId], nextId := st.nextId + 1 }
  let b2 ← b.setId newId
  pure (newId, b2, st2)

/-- Body of Database::getBook on an open connection: SELECT by primary key
yields at most one row; a found row is decoded, absence is the explicit
none result. -/
def getBookImpl (st : DbState) (id now : Int) : Except DbErr (Option Book) :=
  match st.table.find? (fun r => r.id == id) with
  | some r => (bookFromStatement r now).map (fun b => some b)
  | none => .ok none

/-- Body of Database::getAllBooks on an open connection: every row, ordered
by id, decoded in order. -/
def getAllBooksImpl (st : DbState) (now : Int) : Except DbErr (List Book) :=
  (sortBy rowIdLe st.table).mapM (fun r => bookFromStatement r now)

/-- Body of Database::searchBooks on an open connection: rows whose lowered
title or author LIKE-matches the percent-wrapped query, ordered by title,
decoded in order. -/
def searchBooksImpl (st : DbState) (query : String) (now : Int) :
    Except DbErr (List Book) :=
  (sortBy rowTitleLe (st.table.filter (rowMatches query))).mapM
    (fun r => bookFromStatement r now)

/-- Body of Database::updateBook after the id precondition: the UPDATE
overwrites every column of the row whose id matches and reports via
sqlite3_changes whether any row matched. -/
def updateBookImpl (st : DbState) (b : Book) : Bool × DbState :=
  (st.table.any (fun r => r.id == b.id),
   { st with
       table := st.table.map
         (fun r => if r.id == b.id then rowOfBook b b.id else r) })

/-- Body of Database::deleteBook on an open connection: DELETE by id,
reporting via sqlite3_changes whether a row was removed. -/
def deleteBookImpl (st : DbState) (id : Int) : Bool × DbState :=
  (st.table.any (fun r => r.id == id),
   { st with table := st.table.filter (fun r => !(r.id == id)) })

/-- Engine semantics of executeSQL with BEGIN TRANSACTION: sqlite rejects a
nested BEGIN, which executeSQL turns into a runtime error; otherwise the
current durable state is snapshotted. -/
def sqlBegin (st : DbState) : Except DbErr DbState :=
  match st.txnSnapshot with
  | some _ =>
    .error (.runtimeError
      "SQL execution failed: cannot start a transaction within a transaction")
  | none => .ok { st with txnSnapshot := some (st.table, st.nextId) }

/-- Engine semantics of executeSQL with COMMIT: fails without an active
transaction, otherwise makes the writes durable by dropping the
snapshot. -/
def sqlCommit (st : DbState) : Except DbErr DbState :=
  match st.txnSnapshot with
  | some _ => .ok { st with txnSnapshot := none }
  | none =>
    .error (.runtimeError
      "SQL execution failed: cannot commit - no transaction is active")

/-- Engine semantics of executeSQL with ROLLBACK: fails without an active
transaction, otherwise restores the snapshotted state. -/
def sqlRollback (st : DbState) : Except DbErr DbState :=
  match st.txnSnapshot with
  | some snap => .ok { table := snap.1, nextId := snap.2, txnSnapshot := none }
  | none =>
    .error (.runtimeError
      "SQL execution failed: cannot rollback - no transaction is active")

/-- The Database object: m_db is the connection handle (none once closed,
modelling the null pointer) and m_isOpen the status flag. -/
structure Database where
  m_db : Option DbState
  m_isOpen : Bool
deriving DecidableEq, Repr

/-- Database::close: only acts when the handle is non-null. -/
def Database.close (d : Database) : Database :=
  match d.m_db with
  | some _ => { m_db := none, m_isOpen := false }
  | none => d

/-- Database::isOpen. -/
def Database.isOpen (d : Database) : Bool :=
  d.m_isOpen && d.m_db.isSome

/-- Database::addBook: no isOpen check; the statement is prepared directly
on the handle, so a closed store reaches sqlite3_prepare_v2 with null. -/
def Database.addBook (d : Database) (b : Book) :
    Except DbErr (Int × Book × Database) :=
  match d.m_db with
  | none => .error .nullHandleMisuse
  | some st =>
    (addBookImpl st b).map
      (fun x => (x.1, x.2.1, { d with m_db := some x.2.2 }))

/-- Database::getBook: no isOpen check. -/
def Database.getBook (d : Database) (id now : Int) :
    Except DbErr (Option Book) :=
  match d.m_db with
  | none => .error .nullHandleMisuse
  | some st => getBookImpl st id now

/-- Database::getAllBooks: no isOpen check. -/
def Database.getAllBooks (d : Database) (now : Int) :
    Except DbErr (List Book) :=
  match d.m_db with
  | none => .error .nullHandleMisuse
  | some st => getAllBooksImpl st now

/-- Database::searchBooks: no isOpen check. -/
def Database.searchBooks (d : Database) (query : String) (now : Int) :
    Except DbErr (List Book) :=
  match d.m_db with
  | none => .error .nullHandleMisuse
  | some st => searchBooksImpl st query now

/-- Database::updateBook: the id precondition is checked first, before any
use of the connection; then, with no isOpen check, the UPDATE runs on the
handle. -/
def Database.updateBook (d : Database) (b : Book) :
    Except DbErr (Bool × Database) :=
  if b.id ≤ 0 then .error (.invalidArgument "Cannot update book: invalid ID")
  else
    match d.m_db with
    | none => .error .nullHandleMisuse
    | some st =>
      let x := updateBookImpl st b
      .ok (x.1, { d with m_db := some x.2 })

/-- Database::deleteBook: no isOpen check. -/
def Database.deleteBook (d : Database) (id : Int) :
    Except DbErr (Bool × Database) :=
  match d.m_db with
  | none => .error .nullHandleMisuse
  | some st =>
    let x := deleteBookImpl st id
    .ok (x.1, { d with m_db := some x.2 })

/-- Database::beginTransaction: executeSQL on the handle, no isOpen
check. -/
def Database.beginTransaction (d : Database) : Except DbErr Database :=
  match d.m_db with
  | none => .error .nullHandleMisuse
  | some st => (sqlBegin st).map (fun st2 => { d with m_db := some st2 })

/-- Database::commitTransaction: executeSQL on the handle, no isOpen
check. -/
def Database.commitTransaction (d : Database) : Except DbErr Database :=
  match d.m_db with
  | none => .error .nullHandleMisuse
  | some st => (sqlCommit st).map (fun st2 => { d with m_db := some st2 })

/-- Database::rollbackTransaction: executeSQL on the handle, no isOpen
check. -/
def Database.rollbackTransaction (d : Database) : Except DbErr Database :=
  match d.m_db with
  | none => .error .nullHandleMisuse
  | some st => (sqlRollback st).map (fun st2 => { d with m_db := some st2 })

/-- A write operation issued inside a transaction. -/
inductive WriteOp where
  | addW (b : Book)
  | updW (b : Book)
  | delW (id : Int)
deriving DecidableEq, Repr

/-- Effect of one write on the connection state; a write that throws (for
example update with a non-positive id, checked before touching storage)
leaves the stored data untouched, exactly as the propagating C++ exception
would. -/
def applyWrite (st : DbState) (w : WriteOp) : DbState :=
  match w with
  | .addW b =>
    match addBookImpl st b with
    | .ok x => x.2.2
    | .error _ => st
  | .updW b => if b.id ≤ 0 then st else (updateBookImpl st b).2
  | .delW id => (deleteBookImpl st id).2

/-- A sequence of writes applied in order. -/
def applyWrites (st : DbState) (ws : List WriteOp) : DbState :=
  ws.foldl applyWrite st

/-- The successful result state of sqlBegin. -/
def afterBegin (st : DbState) : DbState :=
  { st with txnSnapshot := some (st.table, st.nextId) }

/-- Entity-level validity of a Book: exactly the conjunction of the field
invariants the validating constructor and setters enforce (the page bound
is only enforced for a positive page count, see Book::setCurrentPage). -/
@[reducible] def BookValid (b : Book) : Prop :=
  0 ≤ b.id ∧ b.title ≠ "" ∧ b.author ≠ "" ∧
  (b.isbn = "" ∨ b.isbn.length = 13) ∧
  0 ≤ b.pageCount ∧ 0 ≤ b.currentPage ∧
  (0 < b.pageCount → b.currentPage ≤ b.pageCount) ∧
  0 ≤ b.rating ∧ b.rating ≤ 5 ∧
  0 ≤ b.yearPublished ∧ b.yearPublished ≤ 9999 ∧
  0 ≤ b.status ∧ b.status ≤ 4

/-- The invariant the specification claims for reading progress, in the
amended form the code actually maintains: pages are non-negative and the
current page is bounded by the page count whenever the page count is
positive. -/
def pageInv (b : Book) : Prop :=
  0 ≤ b.pageCount ∧ 0 ≤ b.currentPage ∧
  (0 < b.pageCount → b.currentPage ≤ b.pageCount)

/-- A fresh empty store, as initializeSchema leaves it. -/
def stEmpty : DbState :=
  { table := [], nextId := 1, txnSnapshot := none }

/-- A concrete stored row, as add would write it for The Hobbit. -/
def rowHobbit : Row :=
  { id := 1, title := some "The Hobbit", author := some "J.R.R. Tolkien",
    isbn := some "", page_count := 310, current_page := 0,
    start_date := none, completion_date := none, genre := some "",
    publisher := some "", year_published := 1937, notes := some "",
    review := some "", rating := 0, cover_path := some "",
    date_added := some 100, status := 0 }

/-- A store holding exactly the Hobbit row. -/
def stOne : DbState :=
  { table := [rowHobbit], nextId := 2, txnSnapshot := none }

/-- An open Database over the one-row store. -/
def dbOne : Database :=
  { m_db := some stOne, m_isOpen := true }

/-- An open Database over the empty store. -/
def dbOpenEmpty : Database :=
  { m_db := some stEmpty, m_isOpen := true }

/-- The same Database after close(): the handle is null. -/
def dbClosed : Database :=
  dbOpenEmpty.close

/-- A book carrying a positive (persisted) id, for update calls. -/
def bkId1 : Book :=
  { Book.new 0 with
      id := 1,
      title := "The Hobbit",
      author := "J.R.R. Tolkien",
      pageCount := 310 }

/-- A stored row whose start_date column is NULL while current_page is
positive: decoding it runs Book::setCurrentPage, which fabricates a start
date from the current clock. -/
def rowMidRead : Row :=
  { id := 3, title := some "T", author := some "A", isbn := some "",
    page_count := 100, current_page := 50, start_date := none,
    completion_date := none, genre := some "", publisher := some "",
    year_published := 0, notes := some "", review := some "", rating := 0,
    cover_path := some "", date_added := some 100, status := 0 }

/-- A stored row whose status column holds 7, outside the valid 0..4
range. -/
def rowBadStatus : Row :=
  { id := 4, title := some "T", author := some "A", isbn := some "",
    page_count := 10, current_page := 0, start_date := none,
    completion_date := none, genre := some "", publisher := some "",
    year_published := 0, notes := some "", review := some "", rating := 0,
    cover_path := some "", date_added := some 100, status := 7 }

/-- A store holding exactly the bad-status row. -/
def stBadStatus : DbState :=
  { table := [rowBadStatus], nextId := 5, txnSnapshot := none }

/-- A valid finished book whose start date was never set: reachable via
markAsCompleted, which sets the current page and completion date but not
the start date. -/
def bkFinished : Book :=
  { id := 0, title := "T", author := "A", isbn := "", pageCount := 100,
    currentPage := 100, startDate := none, completionDate := some 1000,
    genre := "", publisher := "", yearPublished := 0, notes := "",
    review := "", rating := 0, coverPath := "", dateAdded := 50,
    status := 2 }

/-- The same book with its start date recorded, satisfying the amended
round-trip hypotheses. -/
def bkRecorded : Book :=
  { bkFinished with startDate := some 10 }

/-- The one-row store with a transaction already open. -/
def stInTxn : DbState :=
  afterBegin stOne

/-- An open Database whose connection has a transaction open. -/
def dbInTxn : Database :=
  { m_db := some stInTxn, m_isOpen := true }

/-- Setter success lemma: a non-negative id is accepted. -/
theorem setId_ok (i : Int) (h : 0 ≤ i) (b : Book) :
    b.setId i = .ok { b with id := i } := by
  unfold Book.setId
  rw [if_neg (by omega)]

/-- Setter success lemma: a non-empty title is accepted. -/
theorem setTitle_ok (t : String) (h : t ≠ "") (b : Book) :
    b.setTitle t = .ok { b with title := t } := by
  unfold Book.setTitle
  rw [if_neg h]

/-- Setter success lemma: a non-empty author is accepted. -/
theorem setAuthor_ok (a : String) (h : a ≠ "") (b : Book) :
    b.setAuthor a = .ok { b with author := a } := by
  unfold Book.setAuthor
  rw [if_neg h]

/-- Setter success lemma: an empty or 13-character ISBN is accepted. -/
theorem setISBN_ok (s : String) (h : s = "" ∨ s.length = 13) (b : Book) :
    b.setISBN s = .ok { b with isbn := s } := by
  unfold Book.setISBN
  rw [if_neg]
  rcases h with h | h
  · exact fun hc => hc.1 h
  · exact fun hc => hc.2 h

/-- Setter success lemma: a non-negative page count at or above the current
page is accepted without clamping. -/
theorem setPageCount_ok_of_le (pc : Int) (hpc : 0 ≤ pc) (b : Book)
    (hb : b.currentPage ≤ pc) :
    b.setPageCount pc = .ok { b with pageCount := pc } := by
  unfold Book.setPageCount
  rw [if_neg (by omega), if_neg (by omega)]

/-- Setter success lemma: a year in 0..9999 is accepted. -/
theorem setYearPublished_ok (y : Int) (h0 : 0 ≤ y) (h1 : y ≤ 9999)
    (b : Book) : b.setYearPublished y = .ok { b with yearPublished := y } := by
  unfold Book.setYearPublished
  rw [if_neg (by omega)]

/-- Setter success lemma: a rating in 0..5 is accepted. -/
theorem setRating_ok (x : Int) (h0 : 0 ≤ x) (h1 : x ≤ 5) (b : Book) :
    b.setRating x = .ok { b with rating := x } := by
  unfold Book.setRating
  rw [if_neg (by omega)]

/-- Setter success lemma: a status code in 0..4 is accepted. -/
theorem setStatus_ok (x : Int) (h0 : 0 ≤ x) (h1 : x ≤ 4) (b : Book) :
    b.setStatus x = .ok { b with status := x } := by
  unfold Book.setStatus
  rw [if_neg (by omega)]

/-- Full characterization of a successful setCurrentPage on a book whose
optional dates are both still absent (the situation during row
decoding). -/
theorem setCurrentPage_ok_fresh (cp now : Int) (h0 : 0 ≤ cp) (b : Book)
    (hsd : b.startDate = none) (hcd : b.completionDate = none)
    (hb : ¬(cp > b.pageCount ∧ b.pageCount > 0)) :
    b.setCurrentPage cp now = .ok { b with
      currentPage := cp,
      startDate := if cp > 0 then some now else none,
      completionDate :=
        if cp = b.pageCount ∧ b.pageCount > 0 then some now else none } := by
  obtain ⟨bid, btitle, bauthor, bisbn, bpc, bcp, bsd, bcd, bg, bpub, byr,
    bn, brv, brt, bcv, bda, bst⟩ := b
  simp only at hsd hcd hb
  subst hsd
  subst hcd
  unfold Book.setCurrentPage
  rw [if_neg (by omega), if_neg hb]
  simp only
  split_ifs with hx1 hx2 hx3 hx4 hx5 hx6 <;> first
    | rfl
    | (exfalso; omega)
    | (exfalso; simp_all)

/-- Decoding the row written for a book recovers the book with the
engine-assigned id, provided the book is valid and its optional dates are
consistent with its progress (a positive current page has a recorded start
date, a finished book has a recorded completion date). Without the two
date hypotheses the decode would fabricate dates from the clock, which is
exactly the C4 finding. -/
theorem decode_encode (b : Book) (i now : Int) (hi : 0 ≤ i)
    (hv : BookValid b)
    (hs : 0 < b.currentPage → b.startDate ≠ none)
    (hc : b.currentPage = b.pageCount ∧ 0 < b.pageCount →
      b.completionDate ≠ none) :
    bookFromStatement (rowOfBook b i) now = .ok { b with id := i } := by
  obtain ⟨bid, btitle, bauthor, bisbn, bpc, bcp, bsd, bcd, bg, bpub, byr,
    bn, brv, brt, bcv, bda, bst⟩ := b
  obtain ⟨h1, h2, h3, h4, h5, h6, h7, h8, h9, h10, h11, h12, h13⟩ := hv
  simp only at h1 h2 h3 h4 h5 h6 h7 h8 h9 h10 h11 h12 h13 hs hc
  have hnb : ¬(bcp > bpc ∧ bpc > 0) := by omega
  simp only [bookFromStatement, decodeColumns, rowOfBook, Option.getD,
    setId_ok i hi, setTitle_ok btitle h2, setAuthor_ok bauthor h3,
    setISBN_ok bisbn h4, setYearPublished_ok byr h10 h11,
    setRating_ok brt h8 h9, setStatus_ok bst h12 h13,
    Book.setStartDate, Book.setCompletionDate, Book.setGenre,
    Book.setPublisher, Book.setNotes, Book.setReview, Book.setCoverPath,
    Book.setDateAdded, Book.new, Bind.bind, Except.bind]
  rw [setPageCount_ok_of_le bpc h5 _ (show (0:Int) ≤ bpc by omega)]
  dsimp only
  rw [setCurrentPage_ok_fresh bcp now h6 _ rfl rfl hnb]
  dsimp only
  rcases bsd with _ | sdt
  · have hbcp : bcp = 0 := by
      by_contra hne
      exact hs (by omega) rfl
    subst hbcp
    rcases bcd with _ | cdt
    · have hcc : ¬((0 : Int) = bpc ∧ bpc > 0) := fun hx => hc ⟨hx.1, hx.2⟩ rfl
      simp only [Except.bind]
      rw [if_neg (by omega), if_neg hcc]
      rfl
    · simp only [Except.bind]
      rw [if_neg (by omega : ¬(0 : Int) > 0)]
      rfl
  · rcases bcd with _ | cdt
    · have hcc : ¬(bcp = bpc ∧ bpc > 0) := fun hx => hc ⟨hx.1, hx.2⟩ rfl
      simp only [Except.bind]
      rw [if_neg hcc]
      rfl
    · simp only [Except.bind]
      rfl

/-- A table with pairwise-distinct ids that contains a row with id x
contains exactly one such row. -/
theorem countP_id_unique (l : List Row) (x : Int)
    (hp : l.Pairwise (fun a b => a.id ≠ b.id))
    (he : ∃ r ∈ l, r.id = x) :
    l.countP (fun r => r.id == x) = 1 := by
  induction l with
  | nil => simp at he
  | cons a l ih =>
    rw [List.pairwise_cons] at hp
    obtain ⟨hall, htail⟩ := hp
    rw [List.countP_cons]
    by_cases hax : a.id = x
    · have hz : l.countP (fun r => r.id == x) = 0 := by
        rw [List.countP_eq_zero]
        intro r hr
        simp only [beq_iff_eq]
        intro hrx
        exact hall r hr (by omega)
      simp [hz, hax]
    · obtain ⟨r, hr, hrx⟩ := he
      rcases List.mem_cons.mp hr with hra | hrl
      · exact absurd (hra ▸ hrx) hax
      · have := ih htail ⟨r, hrl, hrx⟩
        simp [this, hax]

/-- find? skips a prefix in which nothing matches. -/
theorem find?_append_of_none {p : Row → Bool} {l1 l2 : List Row}
    (h : List.find? p l1 = none) :
    List.find? p (l1 ++ l2) = List.find? p l2 := by
  rw [List.find?_append, h, Option.none_or]

/-- No row of a well-formed table carries the id the AUTOINCREMENT counter
is about to assign. -/
theorem find?_nextId_none (st : DbState) (hwf : stWf st) :
    List.find? (fun r => r.id == st.nextId) st.table = none := by
  rw [List.find?_eq_none]
  intro r hr
  simp only [beq_iff_eq]
  have := hwf.2.1 r hr
  omega

/-- A single write never touches the transaction snapshot: the engine only
moves table rows and the id counter. -/
theorem applyWrite_txnSnapshot (st : DbState) (w : WriteOp) :
    (applyWrite st w).txnSnapshot = st.txnSnapshot := by
  cases w with
  | addW b =>
    simp only [applyWrite, addBookImpl]
    cases hx : b.setId st.nextId with
    | ok b2 => simp [Except.bind, hx]
    | error e => simp [Except.bind, hx]
  | updW b =>
    simp only [applyWrite]
    split_ifs with h
    · rfl
    · simp [updateBookImpl]
  | delW i => simp [applyWrite, deleteBookImpl]

/-- A write sequence never touches the transaction snapshot. -/
theorem applyWrites_txnSnapshot (ws : List WriteOp) (st : DbState) :
    (applyWrites st ws).txnSnapshot = st.txnSnapshot := by
  induction ws generalizing st with
  | nil => rfl
  | cons w ws ih =>
    simp only [applyWrites, List.foldl_cons]
    rw [show List.foldl applyWrite (applyWrite st w) ws =
          applyWrites (applyWrite st w) ws from rfl]
    rw [ih, applyWrite_txnSnapshot]

/-- getAllBooks only reads the table component of the state. -/
theorem getAllBooksImpl_congr (st1 st2 : DbState) (now : Int)
    (h : st1.table = st2.table) :
    getAllBooksImpl st1 now = getAllBooksImpl st2 now := by
  unfold getAllBooksImpl
  rw [h]

/-- C1: the claim says search with the empty query returns an empty
sequence whenever rows exist. On a store holding one row, the code binds
the pattern built from the empty query (two bare percent wildcards), which
LIKE-matches every title, so the search returns that row: the result has
length 1, not 0, both at the engine level and through the Database
wrapper. -/
theorem searchBooks_empty_query_matches_all_rows :
    stOne.table.length = 1 ∧
    (searchBooksImpl stOne "" 0).map List.length = .ok 1 ∧
    Database.searchBooks dbOne "" 0 ≠ .ok [] := by
  decide

/-- C2: after close() the handle is null and no operation checks isOpen():
each of the nine storage operations reaches the sqlite3 API with the null
handle (modelled by the nullHandleMisuse outcome, which in C++ is
SQLITE_MISUSE or undefined behavior, typically a crash) instead of failing
fast with a PreconditionFailed condition; the only exception path produced
by the code is not a PreconditionFailed value. -/
theorem closed_store_ops_reach_null_handle :
    Database.isOpen dbClosed = false ∧
    Database.addBook dbClosed (Book.new 0) = .error .nullHandleMisuse ∧
    Database.getBook dbClosed 1 0 = .error .nullHandleMisuse ∧
    Database.getAllBooks dbClosed 0 = .error .nullHandleMisuse ∧
    Database.searchBooks dbClosed "x" 0 = .error .nullHandleMisuse ∧
    Database.updateBook dbClosed bkId1 = .error .nullHandleMisuse ∧
    Database.deleteBook dbClosed 1 = .error .nullHandleMisuse ∧
    Database.beginTransaction dbClosed = .error .nullHandleMisuse ∧
    Database.commitTransaction dbClosed = .error .nullHandleMisuse ∧
    Database.rollbackTransaction dbClosed = .error .nullHandleMisuse ∧
    DbErr.nullHandleMisuse ≠
      DbErr.preconditionFailed "storage operation on closed store" := by
  decide

/-- C3 counterexample: on a book whose page count is 0, setCurrentPage 5
succeeds (the guard only fires for a positive page count) and leaves
currentPage equal to 5, strictly above pageCount, so the claimed invariant
currentPage less-or-equal pageCount is violated by that operation. -/
theorem setCurrentPage_accepts_page_above_zero_pageCount :
    (Book.new 0).pageCount = 0 ∧
    ((Book.new 0).setCurrentPage 5 7).map
      (fun b => decide (b.currentPage ≤ b.pageCount)) = .ok false := by
  decide

/-- C4: decoding the stored row rowMidRead, whose start_date column is
NULL while current_page is 50, yields an entity whose start date is
present and equal to the clock value passed as now: the NULL column does
not decode to absent, and the mapping is not a pure function of the row
since two different clock readings give two different entities. -/
theorem null_date_decode_uses_clock :
    rowMidRead.start_date = none ∧
    (bookFromStatement rowMidRead 999).map (fun b => b.startDate) =
      .ok (some 999) ∧
    (bookFromStatement rowMidRead 1000).map (fun b => b.startDate) =
      .ok (some 1000) := by
  decide

/-- C5 counterexample: the stored row rowBadStatus has status 7, outside
0..4; decoding it throws InvalidArgument (Book::setStatus rejects the
code), so reading it back through get fails instead of yielding a ToRead
entity. -/
theorem out_of_range_status_read_throws :
    rowBadStatus.status = 7 ∧
    bookFromStatement rowBadStatus 0 =
      .error (.invalidArgument "Invalid status code") ∧
    getBookImpl stBadStatus 4 0 =
      .error (.invalidArgument "Invalid status code") ∧
    Database.getBook { m_db := some stBadStatus, m_isOpen := true } 4 0 =
      .error (.invalidArgument "Invalid status code") := by
  decide

/-- C5 amended: a stored row whose status column is outside 0..4 never
decodes successfully — the row-to-entity mapping goes through
Book::setStatus, which throws, so get/getAll/search propagate an
InvalidArgument error; the defensive intToBookStatus helper, which does
map any out-of-range code to ToRead, is not used on the decode path. -/
theorem out_of_range_status_never_decodes (r : Row) (now : Int)
    (h : r.status < 0 ∨ 4 < r.status) :
    (∀ b, bookFromStatement r now ≠ .ok b) ∧
    intToBookStatus r.status = BookStatus.toRead := by
  constructor
  · intro b hb
    unfold bookFromStatement at hb
    cases hd : decodeColumns r now with
    | error e =>
      rw [hd] at hb
      exact Except.noConfusion hb
    | ok b1 =>
      rw [hd] at hb
      simp only [Except.bind, Book.setStatus] at hb
      rw [if_pos (by omega)] at hb
      exact Except.noConfusion hb
  · unfold intToBookStatus
    rw [if_neg (by omega)]

/-- C5 amended witness: the out-of-range status 7 of rowBadStatus is
mapped to ToRead by the helper, instantiating the amended theorem. -/
theorem out_of_range_status_never_decodes_witness :
    bookFromStatement rowBadStatus 0 ≠ .ok (Book.new 0) ∧
    intToBookStatus rowBadStatus.status = BookStatus.toRead :=
  ⟨(out_of_range_status_never_decodes rowBadStatus 0 (Or.inr (by decide))).1
      (Book.new 0),
   (out_of_range_status_never_decodes rowBadStatus 0 (Or.inr (by decide))).2⟩

/-- C6 counterexample: the thirteen-letter string ABCDEFGHIJKLM contains
no digit, yet both setISBN and the validating constructor accept it,
because the code checks only the length; so validity is not equivalent to
being empty or thirteen digits. -/
theorem isbn_thirteen_letters_accepted :
    ("ABCDEFGHIJKLM".data.all Char.isDigit) = false ∧
    "ABCDEFGHIJKLM".length = 13 ∧
    (Book.new 0).setISBN "ABCDEFGHIJKLM" =
      .ok { Book.new 0 with isbn := "ABCDEFGHIJKLM" } ∧
    (Book.make "T" "A" "ABCDEFGHIJKLM" 10 0).map (fun b => b.isbn) =
      .ok "ABCDEFGHIJKLM" := by
  decide

/-- C6 amended: constructing or setting an ISBN succeeds exactly when the
string is empty or has exactly 13 characters (of any kind); otherwise
InvalidArgument is thrown, so a Book ISBN is always empty or 13
characters long. -/
theorem isbn_length_only_check (b : Book) (t a i : String) (pc now : Int) :
    ((i = "" ∨ i.length = 13) → b.setISBN i = .ok { b with isbn := i }) ∧
    (¬(i = "" ∨ i.length = 13) →
      b.setISBN i = .error (.invalidArgument "ISBN must be 13 digits")) ∧
    (t ≠ "" → a ≠ "" → 0 ≤ pc →
      ((i = "" ∨ i.length = 13) →
        (Book.make t a i pc now).map (fun bk => bk.isbn) = .ok i) ∧
      (¬(i = "" ∨ i.length = 13) →
        Book.make t a i pc now =
          .error (.invalidArgument "ISBN must be 13 digits"))) := by
  refine ⟨fun h => setISBN_ok i h b, fun h => ?_, fun ht ha hpc => ⟨?_, ?_⟩⟩
  · unfold Book.setISBN
    rw [if_pos]
    push_neg at h
    exact ⟨h.1, h.2⟩
  · intro h
    unfold Book.make
    rw [if_neg (by omega), if_neg ht, if_neg ha, if_neg]
    · rfl
    · rcases h with h | h
      · exact fun hcon => hcon.1 h
      · exact fun hcon => hcon.2 h
  · intro h
    unfold Book.make
    rw [if_neg (by omega), if_neg ht, if_neg ha, if_pos]
    push_neg at h
    exact ⟨h.1, h.2⟩

/-- C6 amended witness: a thirteen-character ISBN is accepted on a
concrete book. -/
theorem isbn_length_only_check_witness :
    (Book.new 0).setISBN "9780000000000" =
      .ok { Book.new 0 with isbn := "9780000000000" } :=
  (isbn_length_only_check (Book.new 0) "T" "A" "9780000000000" 1 0).1
    (Or.inr (by decide))

/-- Helper: find? locates the head of a list when its id matches. -/
theorem find?_cons_of_eq {x : Row} {l : List Row} {i : Int}
    (hx : x.id = i) :
    List.find? (fun r => r.id == i) (x :: l) = some x := by
  simp [List.find?_cons, hx]

/-- C7: update with a non-positive id fails with InvalidArgument on any
Database value, open or closed, because the check precedes any use of the
connection; with a positive id, when exactly one row carries that id the
call returns true and overwrites every column of that row, and when no row
carries it the call returns false and the state is completely
unchanged. -/
theorem updateBook_contract (d : Database) (st : DbState) (b : Book)
    (hdb : d.m_db = some st) (hwf : stWf st) :
    (∀ d2 : Database, b.id ≤ 0 → Database.updateBook d2 b =
      .error (.invalidArgument "Cannot update book: invalid ID")) ∧
    (0 < b.id → (∃ r ∈ st.table, r.id = b.id) →
      st.table.countP (fun r => r.id == b.id) = 1 ∧
      Database.updateBook d b = .ok (true,
        { m_db := some
            { st with
                table := st.table.map
                  (fun r => if r.id == b.id then rowOfBook b b.id else r) },
          m_isOpen := d.m_isOpen })) ∧
    (0 < b.id → (∀ r ∈ st.table, r.id ≠ b.id) →
      Database.updateBook d b = .ok (false, d)) := by
  obtain ⟨mdb, misopen⟩ := d
  dsimp only at hdb
  subst hdb
  refine ⟨?_, ?_, ?_⟩
  · intro d2 hle
    unfold Database.updateBook
    rw [if_pos hle]
  · intro hpos hex
    refine ⟨countP_id_unique st.table b.id hwf.1 hex, ?_⟩
    unfold Database.updateBook
    rw [if_neg (by omega)]
    dsimp only [updateBookImpl]
    have hany : st.table.any (fun r => r.id == b.id) = true := by
      rw [List.any_eq_true]
      obtain ⟨r, hr, hrx⟩ := hex
      exact ⟨r, hr, by simp [beq_iff_eq, hrx]⟩
    rw [hany]
  · intro hpos hnone
    unfold Database.updateBook
    rw [if_neg (by omega)]
    dsimp only [updateBookImpl]
    have hany : st.table.any (fun r => r.id == b.id) = false := by
      rw [List.any_eq_false]
      intro r hr
      simp only [beq_iff_eq]
      exact hnone r hr
    have hmap : st.table.map
        (fun r => if r.id == b.id then rowOfBook b b.id else r) =
        st.table :=
      calc st.table.map (fun r => if r.id == b.id then rowOfBook b b.id else r)
          = st.table.map id :=
            List.map_congr_left (fun r hr => by
              rw [if_neg]
              · rfl
              · simp only [beq_iff_eq]
                exact hnone r hr)
        _ = st.table := List.map_id st.table
    rw [hany, hmap]

/-- C7 witness: updating the stored Hobbit row by its id succeeds, reports
true, and the row count condition holds on the concrete store. -/
theorem updateBook_contract_witness :
    stOne.table.countP (fun r => r.id == bkId1.id) = 1 ∧
    Database.updateBook dbOne bkId1 = .ok (true,
      { m_db := some
          { stOne with
              table := stOne.table.map
                (fun r => if r.id == bkId1.id then rowOfBook bkId1 bkId1.id
                          else r) },
        m_isOpen := dbOne.m_isOpen }) :=
  (updateBook_contract dbOne stOne bkId1 rfl (by decide)).2.1
    (by decide) ⟨rowHobbit, by decide, by decide⟩

/-- C8 counterexample: bkFinished is a valid book (its state is reachable
through markAsCompleted) whose start date is absent while its current page
is positive; adding it and reading it back yields an entity whose start
date is present, fabricated from the clock, so the round-trip is not the
identity modulo timestamp truncation. -/
theorem roundtrip_fabricates_start_date :
    BookValid bkFinished ∧ bkFinished.startDate = none ∧
    ((addBookImpl stEmpty bkFinished).bind
        (fun x => getBookImpl x.2.2 x.1 999)).map
      (Option.map (fun bk => bk.startDate)) = .ok (some (some 999)) := by
  decide

/-- C8 amended: add then get is the identity on every valid book whose
optional dates are consistent with its progress: a positive current page
must come with a recorded start date and a finished book with a recorded
completion date; under those hypotheses the returned entity equals the
argument with its id set to the engine-assigned id (timestamps are already
at the one-second resolution the engine stores). -/
theorem roundtrip_amended (b : Book) (st : DbState) (now : Int)
    (hv : BookValid b) (hwf : stWf st)
    (hs : 0 < b.currentPage → b.startDate ≠ none)
    (hc : b.currentPage = b.pageCount ∧ 0 < b.pageCount →
      b.completionDate ≠ none) :
    addBookImpl st b = .ok (st.nextId, { b with id := st.nextId },
      { st with
          table := st.table ++ [rowOfBook b st.nextId],
          nextId := st.nextId + 1 }) ∧
    getBookImpl
      { st with
          table := st.table ++ [rowOfBook b st.nextId],
          nextId := st.nextId + 1 } st.nextId now =
      .ok (some { b with id := st.nextId }) := by
  have hid : 0 ≤ st.nextId := le_of_lt hwf.2.2
  constructor
  · unfold addBookImpl
    dsimp only
    rw [setId_ok st.nextId hid b]
    rfl
  · unfold getBookImpl
    dsimp only
    rw [find?_append_of_none (find?_nextId_none st hwf),
      find?_cons_of_eq (show (rowOfBook b st.nextId).id = st.nextId from rfl)]
    dsimp only
    rw [decode_encode b st.nextId now hid hv hs hc]
    rfl

/-- C8 amended witness: the concrete consistent book bkRecorded
round-trips through the empty store. -/
theorem roundtrip_amended_witness :
    addBookImpl stEmpty bkRecorded = .ok (stEmpty.nextId,
      { bkRecorded with id := stEmpty.nextId },
      { stEmpty with
          table := stEmpty.table ++ [rowOfBook bkRecorded stEmpty.nextId],
          nextId := stEmpty.nextId + 1 }) ∧
    getBookImpl
      { stEmpty with
          table := stEmpty.table ++ [rowOfBook bkRecorded stEmpty.nextId],
          nextId := stEmpty.nextId + 1 } stEmpty.nextId 999 =
      .ok (some { bkRecorded with id := stEmpty.nextId }) :=
  roundtrip_amended bkRecorded stEmpty 999 (by decide) (by decide)
    (by decide) (by decide)

/-- C9: from a state with no open transaction, BEGIN succeeds and
snapshots the durable state; after any sequence of writes, ROLLBACK
restores exactly the pre-transaction table (so a subsequent getAll sees
none of the writes), while COMMIT keeps the written table (so a subsequent
getAll sees all of them). -/
theorem transaction_rollback_commit_visibility (st : DbState)
    (ws : List WriteOp) (now : Int) (h : st.txnSnapshot = none) :
    sqlBegin st = .ok (afterBegin st) ∧
    sqlRollback (applyWrites (afterBegin st) ws) =
      .ok { table := st.table, nextId := st.nextId, txnSnapshot := none } ∧
    getAllBooksImpl
      { table := st.table, nextId := st.nextId, txnSnapshot := none } now =
      getAllBooksImpl st now ∧
    sqlCommit (applyWrites (afterBegin st) ws) =
      .ok { applyWrites (afterBegin st) ws with txnSnapshot := none } ∧
    getAllBooksImpl
      { applyWrites (afterBegin st) ws with txnSnapshot := none } now =
      getAllBooksImpl (applyWrites (afterBegin st) ws) now := by
  have hsnap : (applyWrites (afterBegin st) ws).txnSnapshot =
      some (st.table, st.nextId) := by
    rw [applyWrites_txnSnapshot]
    rfl
  refine ⟨?_, ?_, ?_, ?_, ?_⟩
  · unfold sqlBegin
    rw [h]
    rfl
  · unfold sqlRollback
    rw [hsnap]
  · exact getAllBooksImpl_congr _ _ now rfl
  · unfold sqlCommit
    rw [hsnap]
  · exact getAllBooksImpl_congr _ _ now rfl

/-- C9 witness: on the one-row store, a transaction containing a delete of
the only row is invisible after rollback and kept after commit. -/
theorem transaction_rollback_commit_visibility_witness :
    sqlBegin stOne = .ok (afterBegin stOne) ∧
    sqlRollback (applyWrites (afterBegin stOne) [WriteOp.delW 1]) =
      .ok { table := stOne.table, nextId := stOne.nextId,
            txnSnapshot := none } ∧
    getAllBooksImpl
      { table := stOne.table, nextId := stOne.nextId, txnSnapshot := none }
      0 = getAllBooksImpl stOne 0 ∧
    sqlCommit (applyWrites (afterBegin stOne) [WriteOp.delW 1]) =
      .ok
        { applyWrites (afterBegin stOne) [WriteOp.delW 1] with
            txnSnapshot := none } ∧
    getAllBooksImpl
      { applyWrites (afterBegin stOne) [WriteOp.delW 1] with
          txnSnapshot := none } 0 =
      getAllBooksImpl (applyWrites (afterBegin stOne) [WriteOp.delW 1]) 0 :=
  transaction_rollback_commit_visibility stOne [WriteOp.delW 1] 0 rfl

/-- C10: beginning a transaction while one is already open makes the
engine reject the nested BEGIN; executeSQL turns that into the runtime
error carrying the sqlite message, the call never succeeds, and since the
exception propagates before any mutation the open transaction and its
writes are untouched. -/
theorem nested_begin_rejected (st : DbState) (snap : List Row × Int)
    (h : st.txnSnapshot = some snap) :
    sqlBegin st =
      .error (.runtimeError
        "SQL execution failed: cannot start a transaction within a transaction") ∧
    (∀ st2, sqlBegin st ≠ .ok st2) ∧
    (∀ d : Database, d.m_db = some st →
      Database.beginTransaction d =
        .error (.runtimeError
          "SQL execution failed: cannot start a transaction within a transaction")) := by
  have hb : sqlBegin st =
      .error (.runtimeError
        "SQL execution failed: cannot start a transaction within a transaction") := by
    unfold sqlBegin
    rw [h]
  refine ⟨hb, fun st2 hok => by rw [hb] at hok; exact Except.noConfusion hok,
    fun d hd => ?_⟩
  unfold Database.beginTransaction
  rw [hd]
  dsimp only
  rw [hb]
  rfl

/-- C3 amended: every constructor establishes and every Book operation
preserves the invariant the code actually maintains, namely that both page
fields are non-negative and currentPage is bounded by pageCount whenever
pageCount is positive (the bound is not enforced when pageCount is 0, see
the counterexample); setPageCount clamps currentPage down exactly as
claimed, and setCurrentPage rejects a page above a positive pageCount. -/
theorem page_invariant_amended :
    (∀ now, pageInv (Book.new now)) ∧
    (∀ t a i pc now b, Book.make t a i pc now = .ok b → pageInv b) ∧
    (∀ b, pageInv b →
      (∀ x b2, b.setId x = .ok b2 → pageInv b2) ∧
      (∀ s b2, b.setTitle s = .ok b2 → pageInv b2) ∧
      (∀ s b2, b.setAuthor s = .ok b2 → pageInv b2) ∧
      (∀ s b2, b.setISBN s = .ok b2 → pageInv b2) ∧
      (∀ pc b2, b.setPageCount pc = .ok b2 → pageInv b2 ∧
        b2.pageCount = pc ∧
        b2.currentPage = if b.currentPage > pc then pc else b.currentPage) ∧
      (∀ cp now b2, b.setCurrentPage cp now = .ok b2 →
        pageInv b2 ∧ b2.currentPage = cp ∧ b2.pageCount = b.pageCount) ∧
      (∀ cp now, 0 < b.pageCount → b.pageCount < cp →
        b.setCurrentPage cp now = .error
          (.invalidArgument "Current page cannot be greater than page count")) ∧
      (∀ t, pageInv (b.setStartDate t)) ∧
      (∀ t, pageInv (b.setCompletionDate t)) ∧
      (∀ s, pageInv (b.setGenre s)) ∧
      (∀ s, pageInv (b.setPublisher s)) ∧
      (∀ y b2, b.setYearPublished y = .ok b2 → pageInv b2) ∧
      (∀ s, pageInv (b.setNotes s)) ∧
      (∀ s, pageInv (b.setReview s)) ∧
      (∀ x b2, b.setRating x = .ok b2 → pageInv b2) ∧
      (∀ s, pageInv (b.setCoverPath s)) ∧
      (∀ t, pageInv (b.setDateAdded t)) ∧
      (∀ x b2, b.setStatus x = .ok b2 → pageInv b2) ∧
      (∀ now b2, b.markAsCompleted now = .ok b2 → pageInv b2) ∧
      pageInv b.resetProgress) := by
  refine ⟨?_, ?_, ?_⟩
  · intro now
    unfold pageInv Book.new
    dsimp only
    omega
  · intro t a i pc now b h
    unfold Book.make at h
    split_ifs at h with h1 h2 h3 h4
    injection h with h
    subst h
    unfold pageInv Book.new
    dsimp only
    omega
  · intro b hb
    obtain ⟨f1, f2, f3, f4, f5, f6, f7, f8, f9, f10, f11, f12, f13, f14,
      f15, f16, f17⟩ := b
    obtain ⟨hp1, hp2, hp3⟩ := hb
    dsimp only at hp1 hp2 hp3
    refine ⟨?_, ?_, ?_, ?_, ?_, ?_, ?_, ?_, ?_, ?_, ?_, ?_, ?_, ?_, ?_,
      ?_, ?_, ?_, ?_, ?_⟩
    · intro x b2 h
      unfold Book.setId at h
      split_ifs at h
      injection h with h
      subst h
      unfold pageInv
      dsimp only
      omega
    · intro s b2 h
      unfold Book.setTitle at h
      split_ifs at h
      injection h with h
      subst h
      unfold pageInv
      dsimp only
      omega
    · intro s b2 h
      unfold Book.setAuthor at h
      split_ifs at h
      injection h with h
      subst h
      unfold pageInv
      dsimp only
      omega
    · intro s b2 h
      unfold Book.setISBN at h
      split_ifs at h
      injection h with h
      subst h
      unfold pageInv
      dsimp only
      omega
    · intro pc b2 h
      unfold Book.setPageCount at h
      dsimp only at h
      split_ifs at h with h1 h2
      all_goals injection h with h
      all_goals subst h
      all_goals refine ⟨?_, rfl, ?_⟩
      · unfold pageInv
        dsimp only
        omega
      · dsimp only
        rw [if_pos h2]
      · unfold pageInv
        dsimp only
        omega
      · dsimp only
        rw [if_neg h2]
    · intro cp now b2 h
      unfold Book.setCurrentPage at h
      dsimp only at h
      split_ifs at h
      all_goals injection h with h
      all_goals subst h
      all_goals refine ⟨?_, rfl, rfl⟩
      all_goals unfold pageInv
      all_goals dsimp only
      all_goals omega
    · intro cp now hpc hlt
      unfold Book.setCurrentPage
      dsimp only at hpc hlt ⊢
      rw [if_neg (by omega), if_pos (by constructor <;> omega)]
    · intro t
      unfold pageInv Book.setStartDate
      dsimp only
      omega
    · intro t
      unfold pageInv Book.setCompletionDate
      dsimp only
      omega
    · intro s
      unfold pageInv Book.setGenre
      dsimp only
      omega
    · intro s
      unfold pageInv Book.setPublisher
      dsimp only
      omega
    · intro y b2 h
      unfold Book.setYearPublished at h
      split_ifs at h
      injection h with h
      subst h
      unfold pageInv
      dsimp only
      omega
    · intro s
      unfold pageInv Book.setNotes
      dsimp only
      omega
    · intro s
      unfold pageInv Book.setReview
      dsimp only
      omega
    · intro x b2 h
      unfold Book.setRating at h
      split_ifs at h
      injection h with h
      subst h
      unfold pageInv
      dsimp only
      omega
    · intro s
      unfold pageInv Book.setCoverPath
      dsimp only
      omega
    · intro t
      unfold pageInv Book.setDateAdded
      dsimp only
      omega
    · intro x b2 h
      unfold Book.setStatus at h
      split_ifs at h
      injection h with h
      subst h
      unfold pageInv
      dsimp only
      omega
    · intro now b2 h
      unfold Book.markAsCompleted at h
      split_ifs at h
      injection h with h
      subst h
      unfold pageInv
      dsimp only
      omega
    · unfold pageInv Book.resetProgress
      dsimp only
      omega

/-- C3 amended witness: the invariant holds for a concrete freshly
constructed book and is preserved by a concrete resetProgress call. -/
theorem page_invariant_amended_witness :
    pageInv (Book.new 3) ∧ pageInv (Book.new 3).resetProgress :=
  ⟨page_invariant_amended.1 3,
   (page_invariant_amended.2.2 (Book.new 3)
      (page_invariant_amended.1 3)).2.2.2.2.2.2.2.2.2.2.2.2.2.2.2.2.2.2.2⟩

/-- C10 witness: the one-row store with an open transaction rejects a
second BEGIN, both at the engine level and through the wrapper. -/
theorem nested_begin_rejected_witness :
    sqlBegin stInTxn =
      .error (.runtimeError
        "SQL execution failed: cannot start a transaction within a transaction") ∧
    Database.beginTransaction dbInTxn =
      .error (.runtimeError
        "SQL execution failed: cannot start a transaction within a transaction") :=
  ⟨(nested_begin_rejected stInTxn ([rowHobbit], 2) rfl).1,
   (nested_begin_rejected stInTxn ([rowHobbit], 2) rfl).2.2 dbInTxn rfl⟩

end PRMS

